import Mathlib

/-!
Verification of the NE (New Executable) header decoder from
`src/ne/header.rs`.

The byte source is modelled as a `List Nat` of bytes; `NeHeader.read`
returns the decoded record together with the remaining (unconsumed)
stream, which makes the "consumes exactly 64 bytes" frame condition
directly statable.  I/O errors are modelled by the two `std::io`
error kinds the code can produce: `ErrorKind::UnexpectedEof` (from
`read_exact` on a short source) and `ErrorKind::InvalidInput` (from
`check_magic`).
-/

/-- The two `std::io::ErrorKind` values the code can produce:
`read_exact` fails with `UnexpectedEof` on a short source, and
`check_magic` builds its error with `ErrorKind::InvalidInput`. -/
inductive IoErrorKind where
  | unexpectedEof
  | invalidInput
deriving DecidableEq, Repr

/-- Equality of `Except` results is decidable componentwise; used to
evaluate concrete decode and validation results. -/
instance {ε α : Type} [DecidableEq ε] [DecidableEq α] : DecidableEq (Except ε α)
  | .ok a, .ok b => decidable_of_iff (a = b) ⟨fun h => h ▸ rfl, Except.ok.inj⟩
  | .ok _, .error _ => isFalse fun h => Except.noConfusion h
  | .error _, .ok _ => isFalse fun h => Except.noConfusion h
  | .error e, .error f => decidable_of_iff (e = f) ⟨fun h => h ▸ rfl, Except.error.inj⟩

/-- Modelled from the spec: the 2-byte little-endian wrapper `Lu16`
from `crate::util::endian` (its source file is not under `src/`).
Per section 3 of the spec it holds raw bytes in little-endian order
as received from storage, never reordering them. -/
structure Lu16 where
  lo : Nat
  hi : Nat
deriving DecidableEq, Repr

/-- Modelled from the spec: the accessor `value()` of `Lu16` converts
the stored little-endian bytes to the native unsigned integer. -/
def Lu16.value (x : Lu16) : Nat := x.lo + 0x100 * x.hi

/-- Modelled from the spec: the 4-byte little-endian wrapper `Lu32`
from `crate::util::endian` (its source file is not under `src/`). -/
structure Lu32 where
  b0 : Nat
  b1 : Nat
  b2 : Nat
  b3 : Nat
deriving DecidableEq, Repr

/-- Modelled from the spec: the accessor `value()` of `Lu32` converts
the stored little-endian bytes to the native unsigned integer. -/
def Lu32.value (x : Lu32) : Nat :=
  x.b0 + 0x100 * x.b1 + 0x10000 * x.b2 + 0x1000000 * x.b3

/-- The NE header record, mirroring the 29 fields of `NeHeader` in
`src/ne/header.rs` in declaration order.  The Rust type is
`#[repr(C)]` with `bytemuck::Pod`, so its fields sit at consecutive
byte offsets with no padding; the two `[u8; 2]` byte-array fields are
modelled as pairs of bytes. -/
structure NeHeader where
  magic : Nat × Nat
  major_linker_version : Nat
  minor_linker_version : Nat
  entry_table_offset : Lu16
  entry_table_length : Lu16
  file_load_crc : Lu32
  flags : Lu16
  auto_data_segment_index : Lu16
  init_heap_size : Lu16
  init_stack_size : Lu16
  entry_point : Lu32
  init_stack : Lu32
  segment_count : Lu16
  module_references : Lu16
  non_resident_names_size : Lu16
  segment_table_offset : Lu16
  resource_table_offset : Lu16
  resident_names_table_offset : Lu16
  module_reference_table_offset : Lu16
  import_name_table_offset : Lu16
  non_resident_names_table_offset : Lu32
  movable_entry_point_count : Lu16
  file_alignment_shift_count : Lu16
  resource_table_entries : Lu16
  target_os : Nat
  os2_exe_flags : Nat
  return_thunk_offset : Lu16
  segment_reference_thunk_offset : Lu16
  min_code_swap : Lu16
  expected_win_ver : Nat × Nat
deriving DecidableEq, Repr

/-- Byte `i` of a buffer (out-of-range reads never occur on the
64-byte buffers this is applied to). -/
def byteAt (buf : List Nat) (i : Nat) : Nat := buf.getD i 0

/-- The `bytemuck::cast` of a 64-byte buffer into `NeHeader`: with
`#[repr(C)]` and no padding, each field takes the bytes at its offset,
and each `Lu16`/`Lu32` keeps its raw bytes in storage order.  Offsets
follow the field layout of the Rust struct. -/
def bytemuck_cast (buf : List Nat) : NeHeader :=
  { magic := (byteAt buf 0x00, byteAt buf 0x01)
    major_linker_version := byteAt buf 0x02
    minor_linker_version := byteAt buf 0x03
    entry_table_offset := ⟨byteAt buf 0x04, byteAt buf 0x05⟩
    entry_table_length := ⟨byteAt buf 0x06, byteAt buf 0x07⟩
    file_load_crc := ⟨byteAt buf 0x08, byteAt buf 0x09, byteAt buf 0x0A, byteAt buf 0x0B⟩
    flags := ⟨byteAt buf 0x0C, byteAt buf 0x0D⟩
    auto_data_segment_index := ⟨byteAt buf 0x0E, byteAt buf 0x0F⟩
    init_heap_size := ⟨byteAt buf 0x10, byteAt buf 0x11⟩
    init_stack_size := ⟨byteAt buf 0x12, byteAt buf 0x13⟩
    entry_point := ⟨byteAt buf 0x14, byteAt buf 0x15, byteAt buf 0x16, byteAt buf 0x17⟩
    init_stack := ⟨byteAt buf 0x18, byteAt buf 0x19, byteAt buf 0x1A, byteAt buf 0x1B⟩
    segment_count := ⟨byteAt buf 0x1C, byteAt buf 0x1D⟩
    module_references := ⟨byteAt buf 0x1E, byteAt buf 0x1F⟩
    non_resident_names_size := ⟨byteAt buf 0x20, byteAt buf 0x21⟩
    segment_table_offset := ⟨byteAt buf 0x22, byteAt buf 0x23⟩
    resource_table_offset := ⟨byteAt buf 0x24, byteAt buf 0x25⟩
    resident_names_table_offset := ⟨byteAt buf 0x26, byteAt buf 0x27⟩
    module_reference_table_offset := ⟨byteAt buf 0x28, byteAt buf 0x29⟩
    import_name_table_offset := ⟨byteAt buf 0x2A, byteAt buf 0x2B⟩
    non_resident_names_table_offset := ⟨byteAt buf 0x2C, byteAt buf 0x2D, byteAt buf 0x2E, byteAt buf 0x2F⟩
    movable_entry_point_count := ⟨byteAt buf 0x30, byteAt buf 0x31⟩
    file_alignment_shift_count := ⟨byteAt buf 0x32, byteAt buf 0x33⟩
    resource_table_entries := ⟨byteAt buf 0x34, byteAt buf 0x35⟩
    target_os := byteAt buf 0x36
    os2_exe_flags := byteAt buf 0x37
    return_thunk_offset := ⟨byteAt buf 0x38, byteAt buf 0x39⟩
    segment_reference_thunk_offset := ⟨byteAt buf 0x3A, byteAt buf 0x3B⟩
    min_code_swap := ⟨byteAt buf 0x3C, byteAt buf 0x3D⟩
    expected_win_ver := (byteAt buf 0x3E, byteAt buf 0x3F) }

/-- `NeHeader::read`: `read_exact` a 64-byte buffer from the source,
failing with `UnexpectedEof` if fewer than 64 bytes are available,
then `bytemuck::cast` the buffer.  The second component of the result
is the unconsumed remainder of the source. -/
def NeHeader.read (src : List Nat) : Except IoErrorKind (NeHeader × List Nat) :=
  if 0x40 ≤ src.length then
    .ok (bytemuck_cast (src.take 0x40), src.drop 0x40)
  else
    .error .unexpectedEof

/-- `NeHeader::check_magic`: succeed exactly when the 2-byte `magic`
field equals the bytes of `"NE"` (`0x4E 0x45`), otherwise fail with an
`InvalidInput` error. -/
def NeHeader.check_magic (h : NeHeader) : Except IoErrorKind Unit :=
  if h.magic = (0x4E, 0x45) then .ok () else .error .invalidInput

/-- One call of `check_magic` on a record, also returning the record
the caller holds afterwards (`check_magic` takes `&self`, so the
record is returned unchanged). -/
def check_magic_call (h : NeHeader) : Except IoErrorKind Unit × NeHeader :=
  (h.check_magic, h)

/-- The results of `n` successive `check_magic` calls, each call made
on the record left behind by the previous call. -/
def check_magic_calls : NeHeader → Nat → List (Except IoErrorKind Unit)
  | _, 0 => []
  | h, n + 1 =>
    (check_magic_call h).1 :: check_magic_calls (check_magic_call h).2 n

/-- The little-endian interpretation of two bytes, written directly
from the spec's byte-order contract (section 6). -/
def le16 (b0 b1 : Nat) : Nat := b0 + 0x100 * b1

/-- The little-endian interpretation of four bytes, written directly
from the spec's byte-order contract (section 6). -/
def le32 (b0 b1 b2 b3 : Nat) : Nat :=
  b0 + 0x100 * b1 + 0x10000 * b2 + 0x1000000 * b3

/-- The offset table of section 3 of the spec: each field of a decoded
record equals the bytes of the buffer at that field's byte offset,
multi-byte integer fields carrying the little-endian value of their
source bytes. -/
def fieldsMatchOffsets (buf : List Nat) (h : NeHeader) : Prop :=
  h.magic = (byteAt buf 0x00, byteAt buf 0x01) ∧
  h.major_linker_version = byteAt buf 0x02 ∧
  h.minor_linker_version = byteAt buf 0x03 ∧
  h.entry_table_offset.value = le16 (byteAt buf 0x04) (byteAt buf 0x05) ∧
  h.entry_table_length.value = le16 (byteAt buf 0x06) (byteAt buf 0x07) ∧
  h.file_load_crc.value = le32 (byteAt buf 0x08) (byteAt buf 0x09) (byteAt buf 0x0A) (byteAt buf 0x0B) ∧
  h.flags.value = le16 (byteAt buf 0x0C) (byteAt buf 0x0D) ∧
  h.auto_data_segment_index.value = le16 (byteAt buf 0x0E) (byteAt buf 0x0F) ∧
  h.init_heap_size.value = le16 (byteAt buf 0x10) (byteAt buf 0x11) ∧
  h.init_stack_size.value = le16 (byteAt buf 0x12) (byteAt buf 0x13) ∧
  h.entry_point.value = le32 (byteAt buf 0x14) (byteAt buf 0x15) (byteAt buf 0x16) (byteAt buf 0x17) ∧
  h.init_stack.value = le32 (byteAt buf 0x18) (byteAt buf 0x19) (byteAt buf 0x1A) (byteAt buf 0x1B) ∧
  h.segment_count.value = le16 (byteAt buf 0x1C) (byteAt buf 0x1D) ∧
  h.module_references.value = le16 (byteAt buf 0x1E) (byteAt buf 0x1F) ∧
  h.non_resident_names_size.value = le16 (byteAt buf 0x20) (byteAt buf 0x21) ∧
  h.segment_table_offset.value = le16 (byteAt buf 0x22) (byteAt buf 0x23) ∧
  h.resource_table_offset.value = le16 (byteAt buf 0x24) (byteAt buf 0x25) ∧
  h.resident_names_table_offset.value = le16 (byteAt buf 0x26) (byteAt buf 0x27) ∧
  h.module_reference_table_offset.value = le16 (byteAt buf 0x28) (byteAt buf 0x29) ∧
  h.import_name_table_offset.value = le16 (byteAt buf 0x2A) (byteAt buf 0x2B) ∧
  h.non_resident_names_table_offset.value = le32 (byteAt buf 0x2C) (byteAt buf 0x2D) (byteAt buf 0x2E) (byteAt buf 0x2F) ∧
  h.movable_entry_point_count.value = le16 (byteAt buf 0x30) (byteAt buf 0x31) ∧
  h.file_alignment_shift_count.value = le16 (byteAt buf 0x32) (byteAt buf 0x33) ∧
  h.resource_table_entries.value = le16 (byteAt buf 0x34) (byteAt buf 0x35) ∧
  h.target_os = byteAt buf 0x36 ∧
  h.os2_exe_flags = byteAt buf 0x37 ∧
  h.return_thunk_offset.value = le16 (byteAt buf 0x38) (byteAt buf 0x39) ∧
  h.segment_reference_thunk_offset.value = le16 (byteAt buf 0x3A) (byteAt buf 0x3B) ∧
  h.min_code_swap.value = le16 (byteAt buf 0x3C) (byteAt buf 0x3D) ∧
  h.expected_win_ver = (byteAt buf 0x3E, byteAt buf 0x3F)

/-- The 64-byte sequence of the `test_ne_header` unit test (and of
section 8 of the spec). -/
def sampleBuf : List Nat :=
  [0x4E, 0x45, 0x05, 0x0A, 0x6C, 0x01, 0x02, 0x00,
   0x46, 0x45, 0x52, 0x47, 0x12, 0x03, 0x02, 0x00,
   0x00, 0x10, 0x00, 0x50, 0x10, 0x00, 0x01, 0x00,
   0x00, 0x00, 0x02, 0x00, 0x09, 0x00, 0x01, 0x00,
   0x1C, 0x00, 0x40, 0x00, 0x90, 0x00, 0x54, 0x01,
   0x60, 0x01, 0x62, 0x01, 0x6E, 0x07, 0x00, 0x00,
   0x00, 0x00, 0x08, 0x00, 0xFF, 0xFF, 0x02, 0x08,
   0x00, 0x00, 0x00, 0x00, 0x00, 0x00, 0x00, 0x03]

/-- The sample sequence with its first two bytes replaced by the bytes
of `"MZ"` (`0x4D 0x5A`). -/
def mzBuf : List Nat := 0x4D :: 0x5A :: sampleBuf.drop 2

/-- Characterisation of `NeHeader.read` on a sufficiently long source:
it succeeds, casts the first 64 bytes and leaves the rest. -/
lemma read_ok_of_long {src : List Nat} (hlen : 0x40 ≤ src.length) :
    NeHeader.read src = .ok (bytemuck_cast (src.take 0x40), src.drop 0x40) := by
  unfold NeHeader.read
  rw [if_pos hlen]

/-- Inversion for a successful `NeHeader.read`. -/
lemma read_ok_inv {src : List Nat} {h : NeHeader} {rest : List Nat}
    (hok : NeHeader.read src = .ok (h, rest)) :
    0x40 ≤ src.length ∧ h = bytemuck_cast (src.take 0x40) ∧ rest = src.drop 0x40 := by
  unfold NeHeader.read at hok
  by_cases hlen : 0x40 ≤ src.length
  · rw [if_pos hlen] at hok
    refine ⟨hlen, ?_, ?_⟩
    · exact (congrArg (fun p => p.1) (Except.ok.inj hok)).symm
    · exact (congrArg (fun p => p.2) (Except.ok.inj hok)).symm
  · rw [if_neg hlen] at hok
    exact absurd hok (by simp)

/-- The cast of a full 64-byte buffer satisfies the offset table. -/
lemma cast_fieldsMatchOffsets (buf : List Nat) :
    fieldsMatchOffsets buf (bytemuck_cast buf) := by
  unfold fieldsMatchOffsets bytemuck_cast Lu16.value Lu32.value le16 le32
  simp

/-- C1: for every byte sequence of length exactly 64, decode
(`NeHeader::read`) succeeds and each field of the record equals the
bytes of the input at that field's byte offset from the section-3
table, with every multi-byte integer field's native value being the
little-endian interpretation of its source bytes. -/
theorem decode_reads_fields_at_offsets_le (buf : List Nat)
    (hlen : buf.length = 0x40) :
    ∃ h : NeHeader, NeHeader.read buf = .ok (h, []) ∧ fieldsMatchOffsets buf h := by
  refine ⟨bytemuck_cast buf, ?_, cast_fieldsMatchOffsets buf⟩
  rw [read_ok_of_long (by omega), List.take_of_length_le (by omega),
    List.drop_eq_nil_of_le (by omega)]

/-- Witness for C1 at the sample buffer. -/
theorem decode_reads_fields_at_offsets_le_witness :
    sampleBuf.length = 0x40 ∧
    ∃ h : NeHeader, NeHeader.read sampleBuf = .ok (h, []) ∧
      fieldsMatchOffsets sampleBuf h :=
  ⟨by decide, decode_reads_fields_at_offsets_le sampleBuf (by decide)⟩

/-- C2: decoding the concrete 64-byte sample sequence succeeds and
yields the field values stated in the spec, and `check_magic` succeeds
on the resulting record. -/
theorem decode_sample_header_values :
    ∃ h rest, NeHeader.read sampleBuf = .ok (h, rest) ∧
      h.major_linker_version = 5 ∧
      h.minor_linker_version = 10 ∧
      h.entry_table_offset.value = 0x016C ∧
      h.entry_table_length.value = 0x0002 ∧
      h.file_load_crc.value = 0x47524546 ∧
      h.flags.value = 0x0312 ∧
      h.entry_point.value = 0x00010010 ∧
      h.segment_count.value = 0x0009 ∧
      h.non_resident_names_table_offset.value = 0x0000076E ∧
      h.resource_table_entries.value = 0xFFFF ∧
      h.target_os = 2 ∧
      h.expected_win_ver = (0x00, 0x03) ∧
      h.check_magic = .ok () := by
  refine ⟨bytemuck_cast (sampleBuf.take 0x40), sampleBuf.drop 0x40,
    read_ok_of_long (by decide), ?_⟩
  decide

/-- C3: `check_magic` succeeds on a decoded record iff the record's
first two raw bytes equal 0x4E 0x45, independent of all other fields
(its only other outcome being the InvalidInput format-mismatch error);
and on the sample sequence with its first two bytes replaced by
0x4D 0x5A, decode still succeeds but `check_magic` fails with the
format-mismatch kind. -/
theorem check_magic_iff_ne_signature :
    (∀ h : NeHeader,
      (h.check_magic = .ok () ↔ h.magic = (0x4E, 0x45)) ∧
      (h.check_magic = .ok () ∨ h.check_magic = .error .invalidInput)) ∧
    (∃ h rest, NeHeader.read mzBuf = .ok (h, rest) ∧
      h.check_magic = .error .invalidInput) := by
  constructor
  · intro h
    unfold NeHeader.check_magic
    by_cases hm : h.magic = (0x4E, 0x45)
    · rw [if_pos hm]
      exact ⟨by simp [hm], Or.inl rfl⟩
    · rw [if_neg hm]
      exact ⟨by simp [hm], Or.inr rfl⟩
  · exact ⟨bytemuck_cast (mzBuf.take 0x40), mzBuf.drop 0x40,
      read_ok_of_long (by decide), by decide⟩

/-- C4: for every byte source yielding fewer than 64 bytes, decode
fails with the truncation kind (`UnexpectedEof`) and returns no
record. -/
theorem decode_short_source_fails (src : List Nat)
    (hlen : src.length < 0x40) :
    NeHeader.read src = .error .unexpectedEof := by
  unfold NeHeader.read
  rw [if_neg (by omega)]

/-- Witness for C4 at a 3-byte source. -/
theorem decode_short_source_fails_witness :
    ([0, 1, 2] : List Nat).length < 0x40 ∧
    NeHeader.read [0, 1, 2] = .error .unexpectedEof :=
  ⟨by decide, decode_short_source_fails [0, 1, 2] (by decide)⟩

/-- C5: for every byte sequence of length exactly 64, decode succeeds:
the reinterpretation of the 64 bytes into the record is total and
never fails on size grounds (in this embedding `bytemuck_cast` is a
total function on any 64-byte buffer). -/
theorem decode_total_on_64_bytes (buf : List Nat)
    (hlen : buf.length = 0x40) :
    ∃ h rest, NeHeader.read buf = .ok (h, rest) :=
  ⟨bytemuck_cast (buf.take 0x40), buf.drop 0x40, read_ok_of_long (by omega)⟩

/-- Witness for C5 at the MZ-signed buffer (malformed but correctly
sized). -/
theorem decode_total_on_64_bytes_witness :
    mzBuf.length = 0x40 ∧
    ∃ h rest, NeHeader.read mzBuf = .ok (h, rest) :=
  ⟨by decide, decode_total_on_64_bytes mzBuf (by decide)⟩

/-- C7: the only error kind decode can produce is `UnexpectedEof`, the
only error kind `check_magic` can produce is `InvalidInput`, and the
two kinds are distinct, so a caller can always tell a format-mismatch
result from an I/O-failure result. -/
theorem error_kinds_distinct :
    (∀ src : List Nat, (∃ p, NeHeader.read src = .ok p) ∨
      NeHeader.read src = .error .unexpectedEof) ∧
    (∀ h : NeHeader, h.check_magic = .ok () ∨
      h.check_magic = .error .invalidInput) ∧
    IoErrorKind.unexpectedEof ≠ IoErrorKind.invalidInput := by
  refine ⟨?_, ?_, by decide⟩
  · intro src
    unfold NeHeader.read
    by_cases hlen : 0x40 ≤ src.length
    · rw [if_pos hlen]
      exact Or.inl ⟨_, rfl⟩
    · rw [if_neg hlen]
      exact Or.inr rfl
  · intro h
    unfold NeHeader.check_magic
    by_cases hm : h.magic = (0x4E, 0x45)
    · rw [if_pos hm]
      exact Or.inl rfl
    · rw [if_neg hm]
      exact Or.inr rfl

/-- C8: on a source of at least 64 bytes, decode succeeds, the record
is a function of the first 64 bytes only, and the remaining stream is
exactly the source with its first 64 bytes removed: exactly 64 bytes
are consumed and no byte beyond them influences the result. -/
theorem decode_consumes_exactly_64 (src : List Nat)
    (hlen : 0x40 ≤ src.length) :
    NeHeader.read src = .ok (bytemuck_cast (src.take 0x40), src.drop 0x40) :=
  read_ok_of_long hlen

/-- Witness for C8 at the sample buffer followed by three extra
bytes. -/
theorem decode_consumes_exactly_64_witness :
    0x40 ≤ (sampleBuf ++ [1, 2, 3]).length ∧
    NeHeader.read (sampleBuf ++ [1, 2, 3]) =
      .ok (bytemuck_cast ((sampleBuf ++ [1, 2, 3]).take 0x40),
        (sampleBuf ++ [1, 2, 3]).drop 0x40) :=
  ⟨by decide, decode_consumes_exactly_64 (sampleBuf ++ [1, 2, 3]) (by decide)⟩

/-- C9: `check_magic` is pure and idempotent: making `n` successive
calls, each on the record the previous call left behind, yields the
same result every time, and the record is unchanged by a call. -/
theorem check_magic_pure_idempotent (h : NeHeader) (n : Nat) :
    check_magic_calls h n = List.replicate n h.check_magic ∧
    (check_magic_call h).2 = h := by
  refine ⟨?_, rfl⟩
  induction n with
  | zero => rfl
  | succ n ih => simp [check_magic_calls, check_magic_call, List.replicate_succ, ih]

/-- C10: decode is deterministic in its input bytes: two sources whose
first 64 bytes agree decode to structurally equal records. -/
theorem decode_deterministic_in_first_64 (s1 s2 : List Nat)
    (h1 h2 : NeHeader) (r1 r2 : List Nat)
    (heq : s1.take 0x40 = s2.take 0x40)
    (e1 : NeHeader.read s1 = .ok (h1, r1))
    (e2 : NeHeader.read s2 = .ok (h2, r2)) :
    h1 = h2 := by
  obtain ⟨-, hh1, -⟩ := read_ok_inv e1
  obtain ⟨-, hh2, -⟩ := read_ok_inv e2
  rw [hh1, hh2, heq]

/-- Witness for C10: the sample buffer with and without a trailing
byte decode to the same record. -/
theorem decode_deterministic_in_first_64_witness :
    sampleBuf.take 0x40 = (sampleBuf ++ [7]).take 0x40 ∧
    NeHeader.read sampleBuf = .ok (bytemuck_cast (sampleBuf.take 0x40), []) ∧
    NeHeader.read (sampleBuf ++ [7]) =
      .ok (bytemuck_cast ((sampleBuf ++ [7]).take 0x40), [7]) ∧
    bytemuck_cast (sampleBuf.take 0x40) = bytemuck_cast ((sampleBuf ++ [7]).take 0x40) :=
  ⟨by decide, by decide, by decide,
    decode_deterministic_in_first_64 sampleBuf (sampleBuf ++ [7]) _ _ [] [7]
      (by decide) (by decide) (by decide)⟩
